import Mathlib

/-!
Shallow embedding of the financial-statement analysis pipeline of this
repository (balance_sheet.py, profit_loss.py, cash_flow.py, utils.py).
Strings are modelled as lists of characters, pandas cells as a tagged
union, and the IEEE-754 double results of the analysis stage as exact
rationals extended with the two infinities and a not-a-number sentinel.
-/

/-- Characters of a string literal; the string model used throughout. -/
def S (s : String) : List Char := s.data

/-- Python str.lower for the ASCII labels handled by the program. -/
def lowerL (cs : List Char) : List Char := cs.map Char.toLower

/-- Python str.strip: drop leading and trailing whitespace. -/
def stripWS (cs : List Char) : List Char :=
  (((cs.dropWhile Char.isWhitespace).reverse).dropWhile Char.isWhitespace).reverse

/-- Remainder after the first occurrence of the literal pattern pat, or
none when pat never occurs.  Models re.search for a literal pattern. -/
def afterFirstMatch (pat : List Char) : List Char → Option (List Char)
  | [] => if pat.isEmpty then some [] else none
  | c :: rest =>
    if pat.isPrefixOf (c :: rest) then some ((c :: rest).drop pat.length)
    else afterFirstMatch pat rest

/-- Literal substring containment, Python "pat in s". -/
def containsSub (pat s : List Char) : Bool := (afterFirstMatch pat s).isSome

/-- Ordered occurrence of several literal parts, modelling a regular
expression of the shape a.*b.*c: each part occurs after the previous
one.  Taking the first occurrence of each part is equivalent to the
existence of any such decomposition. -/
def seqContains : List (List Char) → List Char → Bool
  | [], _ => true
  | p :: ps, s =>
    match afterFirstMatch p s with
    | some rest => seqContains ps rest
    | none => false

/-- Does the string contain a run of n consecutive digits somewhere
(regular expression of n digits, searched, unanchored)? -/
def hasDigitRun (n : ℕ) (s : List Char) : Bool :=
  s.tails.any (fun t => decide (n ≤ t.length) && (t.take n).all Char.isDigit)

/-- Start-anchored match of four digits, a dash and two digits. -/
def dashPatHere : List Char → Bool
  | a :: b :: c :: d :: h :: e :: f :: _ =>
    a.isDigit && b.isDigit && c.isDigit && d.isDigit && (h == '-') &&
      e.isDigit && f.isDigit
  | _ => false

/-- Searched match of the year-range pattern of four digits, dash, two
digits. -/
def dashPat (s : List Char) : Bool := s.tails.any dashPatHere

/-- First run of four consecutive digits in the string, if any; models
re.search of four digits returning the matched text. -/
def firstDigitRun4 : List Char → Option (List Char)
  | [] => none
  | c :: rest =>
    if decide (4 ≤ (c :: rest).length) && ((c :: rest).take 4).all Char.isDigit then
      some ((c :: rest).take 4)
    else firstDigitRun4 rest

/-- Numeric value of a digit string. -/
def digitsToNat (cs : List Char) : ℕ :=
  cs.foldl (fun a c => 10 * a + (c.toNat - 48)) 0

/-- Python int() on a string: strip whitespace, optional sign, then a
nonempty digit run; anything else raises (none).  Digit-group
underscores, accepted by recent Python, are not modelled: no statement
below involves them. -/
def pyInt? (cs : List Char) : Option ℤ :=
  match stripWS cs with
  | [] => none
  | c :: rest =>
    if c = '+' then
      (if !rest.isEmpty && rest.all Char.isDigit then some ((digitsToNat rest : ℕ) : ℤ) else none)
    else if c = '-' then
      (if !rest.isEmpty && rest.all Char.isDigit then some (-((digitsToNat rest : ℕ) : ℤ)) else none)
    else if (c :: rest).all Char.isDigit then some ((digitsToNat (c :: rest) : ℕ) : ℤ)
    else none

/-- Decimal float parsing as used by pandas to_numeric: optional sign,
digits with an optional fractional part.  Exponents are not modelled;
no statement below depends on them. -/
def pyFloatCore (cs : List Char) : Option ℚ :=
  let ip := cs.takeWhile Char.isDigit
  let r1 := cs.dropWhile Char.isDigit
  match r1 with
  | [] => if ip.isEmpty then none else some ((digitsToNat ip : ℕ) : ℚ)
  | c :: r2 =>
    if c = '.' then
      let fp := r2.takeWhile Char.isDigit
      let r3 := r2.dropWhile Char.isDigit
      if r3.isEmpty && !(ip.isEmpty && fp.isEmpty) then
        some ((digitsToNat ip : ℕ) + ((digitsToNat fp : ℕ) : ℚ) / (10 ^ fp.length))
      else none
    else none

/-- Python float parsing of a cell string, with sign handling. -/
def pyFloat? (cs : List Char) : Option ℚ :=
  match stripWS cs with
  | [] => none
  | c :: rest =>
    if c = '+' then pyFloatCore rest
    else if c = '-' then (pyFloatCore rest).map (fun q => -q)
    else pyFloatCore (c :: rest)

/-- Decimal digits of a natural number. -/
def natChars (n : ℕ) : List Char := Nat.toDigits 10 n

/-- Decimal rendering of an integer. -/
def intChars (z : ℤ) : List Char :=
  if z < 0 then '-' :: natChars z.natAbs else natChars z.natAbs

/-- A raw grid cell as decoded by pandas with header=None: missing
(NaN), numeric, or text. -/
inductive Cell
  | empty
  | num (q : ℚ)
  | txt (cs : List Char)
deriving DecidableEq

/-- pd.isna on a cell. -/
def Cell.isEmptyCell : Cell → Bool
  | .empty => true
  | _ => false

/-- Python str() of a cell as the loaders see it.  Integral floats
print with a trailing .0; non-integral numeric cells occur in no
statement proved here, so their exact repr is replaced by a
placeholder. -/
def cellPyStr : Cell → List Char
  | .empty => S "nan"
  | .txt cs => cs
  | .num q => if q.den = 1 then intChars q.num ++ S ".0" else S "?"

/-- pd.to_numeric(errors=coerce) followed by fillna(0) on a cell. -/
def cellToNumQ : Cell → ℚ
  | .empty => 0
  | .num q => q
  | .txt cs => (pyFloat? cs).getD 0

/-- An IEEE-754 double as produced by the analysis stage: a finite
value held exactly as a rational, an infinity, or NaN.  The arithmetic
below follows IEEE semantics; finite arithmetic is exact, which is the
standard shallow-embedding reading of these derivations. -/
inductive PyFloat
  | fin (q : ℚ)
  | pinf
  | ninf
  | nan
deriving DecidableEq

/-- IEEE division with the zero-divisor and infinity rules. -/
def PyFloat.div : PyFloat → PyFloat → PyFloat
  | .fin a, .fin b =>
    if b = 0 then (if a = 0 then .nan else if 0 < a then .pinf else .ninf)
    else .fin (a / b)
  | .fin _, .pinf => .fin 0
  | .fin _, .ninf => .fin 0
  | .fin _, .nan => .nan
  | .pinf, .fin b => if 0 ≤ b then .pinf else .ninf
  | .pinf, .pinf => .nan
  | .pinf, .ninf => .nan
  | .pinf, .nan => .nan
  | .ninf, .fin b => if 0 ≤ b then .ninf else .pinf
  | .ninf, .pinf => .nan
  | .ninf, .ninf => .nan
  | .ninf, .nan => .nan
  | .nan, _ => .nan

/-- IEEE subtraction on the extended values. -/
def PyFloat.sub : PyFloat → PyFloat → PyFloat
  | .fin a, .fin b => .fin (a - b)
  | .fin _, .pinf => .ninf
  | .fin _, .ninf => .pinf
  | .pinf, .fin _ => .pinf
  | .pinf, .ninf => .pinf
  | .pinf, .pinf => .nan
  | .ninf, .fin _ => .ninf
  | .ninf, .pinf => .ninf
  | .ninf, .ninf => .nan
  | .nan, _ => .nan
  | _, .nan => .nan

/-- IEEE multiplication on the extended values. -/
def PyFloat.mul : PyFloat → PyFloat → PyFloat
  | .fin a, .fin b => .fin (a * b)
  | .fin a, .pinf => if a = 0 then .nan else if 0 < a then .pinf else .ninf
  | .fin a, .ninf => if a = 0 then .nan else if 0 < a then .ninf else .pinf
  | .pinf, .fin b => if b = 0 then .nan else if 0 < b then .pinf else .ninf
  | .ninf, .fin b => if b = 0 then .nan else if 0 < b then .ninf else .pinf
  | .pinf, .pinf => .pinf
  | .pinf, .ninf => .ninf
  | .ninf, .pinf => .ninf
  | .ninf, .ninf => .pinf
  | .nan, _ => .nan
  | _, .nan => .nan

/-- Is the value one of the two infinities? -/
def PyFloat.isInf : PyFloat → Bool
  | .pinf => true
  | .ninf => true
  | _ => false

/-- A Python exception value; int() and datetime() raise ValueError. -/
inductive PyErr
  | valueError
deriving DecidableEq

/-- Python int() as an exception-raising computation. -/
def pyIntE (cs : List Char) : Except PyErr ℤ :=
  match pyInt? cs with
  | some z => Except.ok z
  | none => Except.error PyErr.valueError

/-- datetime(year, month, 1): validates 1 <= year <= 9999 and
1 <= month <= 12, raising ValueError otherwise. -/
def mkDatetimeE (y m : ℤ) : Except PyErr (ℤ × ℤ) :=
  if 1 ≤ y ∧ y ≤ 9999 ∧ 1 ≤ m ∧ m ≤ 12 then Except.ok (y, m)
  else Except.error PyErr.valueError

/-- Month abbreviations used by strftime of a percent-b directive. -/
def monthAbbrev (m : ℤ) : List Char :=
  if m = 1 then S "Jan" else if m = 2 then S "Feb" else if m = 3 then S "Mar"
  else if m = 4 then S "Apr" else if m = 5 then S "May" else if m = 6 then S "Jun"
  else if m = 7 then S "Jul" else if m = 8 then S "Aug" else if m = 9 then S "Sep"
  else if m = 10 then S "Oct" else if m = 11 then S "Nov" else if m = 12 then S "Dec"
  else []

/-- strftime of the month-dash-year pattern on a validated date. -/
def fmtBY (d : ℤ × ℤ) : List Char := monthAbbrev d.2 ++ ['-'] ++ intChars d.1

/-- Try body of utils.parse_year: int on the first four characters, int
on the rest, then datetime and strftime.  An error is a raised
ValueError reaching the handler. -/
def parseYearUtilsBody (cs : List Char) : Except PyErr (List Char) := do
  let y ← pyIntE (cs.take 4)
  let m ← pyIntE (cs.drop 4)
  let d ← mkDatetimeE y m
  pure (fmtBY d)

/-- utils.parse_year with its catch-all handler: the handler returns
the original string. -/
def parseYearUtilsRun (cs : List Char) : Except PyErr (List Char) :=
  match parseYearUtilsBody cs with
  | Except.ok r => Except.ok r
  | Except.error _ => Except.ok cs

/-- utils.parse_year as a plain function. -/
def parseYearUtils (cs : List Char) : List Char :=
  match parseYearUtilsBody cs with
  | Except.ok r => r
  | Except.error _ => cs

/-- Try body of balance_sheet.parse_year after the strip rebinding, for
string input (the isinstance number branch is not taken): dispatch on
the stripped length with the final regex fallback. -/
def parseYearBSBodyStripped (t : List Char) : Except PyErr (List Char) :=
  if t.length = 6 then do
    let y ← pyIntE (t.take 4)
    let m ← pyIntE (t.drop 4)
    let d ← mkDatetimeE y m
    pure (fmtBY d)
  else if t.length = 4 then Except.ok (S "FY-" ++ t)
  else if t.length = 8 then do
    let y ← pyIntE (t.take 4)
    let m ← pyIntE ((t.drop 4).take 2)
    let d ← mkDatetimeE y m
    pure (fmtBY d)
  else
    match firstDigitRun4 t with
    | some run => Except.ok (S "FY-" ++ run)
    | none => Except.ok t

/-- balance_sheet.parse_year with its catch-all handler; the handler
returns str of the rebound, already stripped, value. -/
def parseYearBSRun (cs : List Char) : Except PyErr (List Char) :=
  match parseYearBSBodyStripped (stripWS cs) with
  | Except.ok r => Except.ok r
  | Except.error _ => Except.ok (stripWS cs)

/-- balance_sheet.parse_year as a plain function. -/
def parseYearBS (cs : List Char) : List Char :=
  match parseYearBSBodyStripped (stripWS cs) with
  | Except.ok r => r
  | Except.error _ => stripWS cs

/-- profit_loss.parse_year is textually identical to
balance_sheet.parse_year. -/
def parseYearPL (cs : List Char) : List Char := parseYearBS cs

/-- The run form of profit_loss.parse_year, identical to the balance
sheet variant. -/
def parseYearPLRun (cs : List Char) : Except PyErr (List Char) := parseYearBSRun cs

/-- Width of a decoded grid: pandas pads every row to the widest. -/
def gridWidth (g : List (List Cell)) : ℕ := g.foldr (fun r w => max r.length w) 0

/-- Pad one row with missing cells to the grid width. -/
def padTo (w : ℕ) (r : List Cell) : List Cell := r ++ List.replicate (w - r.length) Cell.empty

/-- The search string find_data_structure builds per row: str of every
non-missing cell, lowercased, joined with single spaces. -/
def rowSearchStr (r : List Cell) : List Char :=
  List.intercalate [' '] ((r.filter (fun c => !c.isEmptyCell)).map (fun c => lowerL (cellPyStr c)))

/-- Does the row text match one of the five year patterns: the word
year, a four-digit run, a six-digit run, fy followed later by four
digits, or four digits dash two digits? -/
def yearRowPred (r : List Cell) : Bool :=
  let s := rowSearchStr r
  containsSub (S "year") s || hasDigitRun 4 s || hasDigitRun 6 s ||
    (match afterFirstMatch (S "fy") s with
     | some rest => hasDigitRun 4 rest
     | none => false) ||
    dashPat s

/-- Index of the first row matching a year pattern. -/
def findYearRow (g : List (List Cell)) : Option ℕ := g.findIdx? yearRowPred

/-- Balance-sheet structural keyword patterns applied to a row text. -/
def bsKeywordPred (r : List Cell) : Bool :=
  let s := rowSearchStr r
  seqContains [S "balance", S "sheet"] s || containsSub (S "assets") s ||
    containsSub (S "liabilities") s || containsSub (S "equity") s ||
    seqContains [S "current", S "assets"] s || seqContains [S "total", S "assets"] s ||
    seqContains [S "shareholders", S "funds"] s

/-- Profit-and-loss structural keyword patterns applied to a row text. -/
def plKeywordPred (r : List Cell) : Bool :=
  let s := rowSearchStr r
  seqContains [S "income", S ":"] s || seqContains [S "profit", S "loss"] s ||
    seqContains [S "p", S "&", S "l"] s || containsSub (S "revenue") s ||
    containsSub (S "sales") s || seqContains [S "income", S "statement"] s ||
    seqContains [S "net", S "sales"] s

/-- balance_sheet.find_data_structure: year row first; if found, data
starts right after it; otherwise the first keyword row itself is the
data start. -/
def findDataStructureBS (g : List (List Cell)) : Option ℕ × Option ℕ :=
  match findYearRow g with
  | some y => (some y, some (y + 1))
  | none => (none, g.findIdx? bsKeywordPred)

/-- First index strictly greater than k whose row satisfies p, scanning
upward, as the profit-and-loss keyword loop does. -/
def findIdxAfter (p : List Cell → Bool) (g : List (List Cell)) (k : ℕ) : Option ℕ :=
  (List.range g.length).find? (fun i => decide (k < i) && p ((g.get? i).getD []))

/-- profit_loss.find_data_structure: year row first; then the first
keyword row strictly after it (or after row 0 when none was found)
plus one is the data start. -/
def findDataStructurePL (g : List (List Cell)) : Option ℕ × Option ℕ :=
  let y := findYearRow g
  (y, (findIdxAfter plKeywordPred g (y.getD 0)).map (fun i => i + 1))

/-- Structure indices the balance-sheet loader actually uses, with a
flag recording that a warning was surfaced.  When the year row is
missing, both branches of the first-row numeric check assign row 0 as
year row and row 1 as data start, discarding any keyword result; the
missing-data-start default of year row plus one mirrors the code even
though the balance-sheet locator never leaves it undetermined. -/
def bsResolved (g : List (List Cell)) : ℕ × ℕ × Bool :=
  match findDataStructureBS g with
  | (some y, some d) => (y, d, false)
  | (some y, none) => (y, y + 1, true)
  | (none, _) => (0, 1, true)

/-- Structure indices the profit-and-loss loader actually uses, with a
warning flag.  A missing year row defaults to row 0 keeping any
keyword data start; a missing data start defaults to the year row plus
two. -/
def plResolved (g : List (List Cell)) : ℕ × ℕ × Bool :=
  match findDataStructurePL g with
  | (some y, some d) => (y, d, false)
  | (some y, none) => (y, y + 2, true)
  | (none, some d) => (0, d, true)
  | (none, none) => (0, 2, true)

/-- The normalized table a loader returns: parsed period labels and
rows of line-item label with numeric period values. -/
structure FinTable where
  cols : List (List Char)
  rows : List (Cell × List ℚ)
deriving DecidableEq

/-- Drop the rows that are zero in every period column, the final
cleanup step shared by the balance-sheet and profit-and-loss loaders. -/
def dropZeroRows (rows : List (Cell × List ℚ)) : List (Cell × List ℚ) :=
  rows.filter (fun r => !(r.2.all (fun v => decide (v = 0))))

/-- dropna row filter of the balance-sheet loader: keep a row holding a
value in at least one period column whose header cell is itself
non-missing. -/
def bsKeepRow (header r : List Cell) : Bool :=
  (List.zip (header.drop 1) (r.drop 1)).any
    (fun p => !p.1.isEmptyCell && !p.2.isEmptyCell)

/-- load_balance_sheet_file after a successful decode: resolve the
structure, slice the header and data region, drop rows empty across
the non-missing period headers, require period columns, fail when the
new column list is shorter than the frame (a pandas length-mismatch
error caught by the handler), coerce to numeric with zero fill and
drop all-zero rows. -/
def loadBS (g : List (List Cell)) : Option FinTable :=
  if g.isEmpty then none
  else
    let w := gridWidth g
    let y := (bsResolved g).1
    let d := (bsResolved g).2.1
    let header := padTo w ((g.get? y).getD [])
    let dataRows := ((g.drop d).map (padTo w)).filter (fun r => bsKeepRow header r)
    if dataRows.isEmpty then none
    else
      let yearCols := (header.drop 1).filter (fun c => !c.isEmptyCell)
      if yearCols.isEmpty then none
      else if 1 + yearCols.length ≠ w then none
      else
        some { cols := yearCols.map (fun c => parseYearBS (cellPyStr c)),
               rows := dropZeroRows (dataRows.map
                 (fun r => ((r.get? 0).getD Cell.empty, (r.drop 1).map cellToNumQ))) }

/-- load_profit_loss_file after a successful decode: resolve the
structure, read the period tokens from the year row, fail when the
data start lies beyond the frame, drop fully empty rows, keep at most
as many period columns as period tokens, coerce to numeric with zero
fill and drop all-zero rows. -/
def loadPL (g : List (List Cell)) : Option FinTable :=
  if g.isEmpty then none
  else
    let w := gridWidth g
    let y := (plResolved g).1
    let d := (plResolved g).2.1
    let yearRow := padTo w ((g.get? y).getD [])
    let years := (yearRow.drop 1).filter (fun c => !c.isEmptyCell)
    if years.isEmpty then none
    else if decide (g.length ≤ d) then none
    else
      let dataRows := ((g.drop d).map (padTo w)).filter
        (fun r => r.any (fun c => !c.isEmptyCell))
      if dataRows.isEmpty then none
      else
        let maxC := min years.length (w - 1)
        some { cols := (years.map (fun c => parseYearPL (cellPyStr c))).take maxC,
               rows := dropZeroRows (dataRows.map
                 (fun r => ((r.get? 0).getD Cell.empty, ((r.drop 1).take maxC).map cellToNumQ))) }

/-- Start-anchored match of the word Year against the first cell, the
str.match test of the cash-flow loader; non-string cells are na and
count as no match. -/
def cfYearPred (r : List Cell) : Bool :=
  match (r.get? 0).getD Cell.empty with
  | Cell.txt cs => (S "Year").isPrefixOf cs
  | _ => false

/-- Substring containment of the phrase Cash Flow Summary in the first
cell, the str.contains test of the cash-flow loader. -/
def cfSummaryPred (r : List Cell) : Bool :=
  match (r.get? 0).getD Cell.empty with
  | Cell.txt cs => containsSub (S "Cash Flow Summary") cs
  | _ => false

/-- Number of columns kept by the cash-flow column slice from position
one to the period count plus one, applied after the label column
became the index of a width w frame. -/
def cfSliceCount (w l : ℕ) : ℕ := min (l + 1) (w - 1) - 1

/-- Body of load_cash_flow_file on the rows remaining after the five
skipped ones: locate the Year row and the Cash Flow Summary row (a
missing one raises IndexError into the handler, a total failure), read
the period tokens, take the rows two below the summary row, and fail
when the column slice disagrees with the period-label count (a pandas
length-mismatch error caught by the handler).  No empty-row or
zero-row cleanup is performed. -/
def loadCashFlowCore (rows : List (List Cell)) : Option FinTable :=
  match rows.findIdx? cfYearPred with
  | none => none
  | some yIdx =>
    let w := gridWidth rows
    let yearRow := padTo w ((rows.get? yIdx).getD [])
    let years := (yearRow.drop 1).filter (fun c => !c.isEmptyCell)
    match rows.findIdx? cfSummaryPred with
    | none => none
    | some sIdx =>
      let dataRows := (rows.drop (sIdx + 2)).map (padTo w)
      if cfSliceCount w years.length ≠ years.length then none
      else
        some { cols := years.map (fun c => parseYearUtils (cellPyStr c)),
               rows := dataRows.map
                 (fun r => ((r.get? 0).getD Cell.empty, ((r.drop 2).take years.length).map cellToNumQ)) }

/-- load_cash_flow_file: read_excel with skiprows of five, then the
core. -/
def loadCashFlow (g : List (List Cell)) : Option FinTable := loadCashFlowCore (g.drop 5)

/-- Replace a zero divisor value by NaN, the replace(0, nan) guard the
ratio derivations apply to their divisor column. -/
def replaceZeroNanF (v : PyFloat) : PyFloat :=
  if v = PyFloat.fin 0 then PyFloat.nan else v

/-- Replace the two infinities by NaN, the replace applied to the two
margin series. -/
def replaceInfNanF (v : PyFloat) : PyFloat :=
  match v with
  | PyFloat.pinf => PyFloat.nan
  | PyFloat.ninf => PyFloat.nan
  | x => x

/-- Elementwise ratio of two series after the zero-divisor guard, the
current ratio, debt-to-equity and operating-to-investing derivations. -/
def ratioSeries (num den : List PyFloat) : List PyFloat :=
  List.zipWith PyFloat.div num (den.map replaceZeroNanF)

/-- One margin entry: quotient times one hundred. -/
def marginStep (a b : PyFloat) : PyFloat :=
  PyFloat.mul (PyFloat.div a b) (PyFloat.fin 100)

/-- Margin series: quotient times one hundred with the infinities
replaced by NaN afterwards. -/
def marginSeries (num den : List PyFloat) : List PyFloat :=
  (List.zipWith marginStep num den).map replaceInfNanF

/-- One growth entry as pandas pct_change times one hundred computes
it: current over previous minus one, then times one hundred. -/
def gstep (cur prev : PyFloat) : PyFloat :=
  PyFloat.mul (PyFloat.sub (PyFloat.div cur prev) (PyFloat.fin 1)) (PyFloat.fin 100)

/-- pct_change times one hundred, walking the series with the shifted
previous value; the first previous value is NaN. -/
def pctAux (prev : PyFloat) : List PyFloat → List PyFloat
  | [] => []
  | x :: xs => gstep x prev :: pctAux x xs

/-- Year-over-year growth series of a metric column. -/
def growthList (xs : List PyFloat) : List PyFloat := pctAux PyFloat.nan xs

/-- Does the lowercased label contain any of the candidate substrings? -/
def labelHasAny (pats : List (List Char)) (lbl : List Char) : Bool :=
  pats.any (fun p => containsSub p (lowerL lbl))

/-- First column of the transposed table whose lowercased label
contains one of the candidate substrings, the found_metrics scan. -/
def findMetricCol (pats : List (List Char)) (cols : List (List Char × List ℚ)) :
    Option (List Char × List ℚ) :=
  cols.find? (fun c => labelHasAny pats c.1)

/-- Candidate substrings for current assets. -/
def bsPatsCA : List (List Char) :=
  [S "total current assets", S "current assets", S "total ca", S "current asset"]

/-- Candidate substrings for current liabilities. -/
def bsPatsCL : List (List Char) :=
  [S "total current liabilities", S "current liabilities", S "total cl", S "current liability"]

/-- Candidate substrings for total assets. -/
def bsPatsTA : List (List Char) := [S "total assets", S "total asset", S "ta"]

/-- Candidate substrings for total liabilities. -/
def bsPatsTL : List (List Char) := [S "total liabilities", S "total liability", S "tl"]

/-- Candidate substrings for shareholders funds. -/
def bsPatsSF : List (List Char) :=
  [S "total shareholders funds", S "shareholders funds", S "shareholders equity",
   S "total equity", S "equity", S "net worth"]

/-- Candidate substrings for debt. -/
def bsPatsDebt : List (List Char) :=
  [S "total debt", S "total borrowings", S "debt", S "borrowings"]

/-- One named growth entry for a metric column found in the table. -/
def growthEntry (c : Option (List Char × List ℚ)) : List (List Char × List PyFloat) :=
  match c with
  | some col => [(col.1 ++ S " YoY Growth (%)", growthList (col.2.map PyFloat.fin))]
  | none => []

/-- analyze_balance_sheet on the transposed table (labels are the
line-item columns): current ratio and debt-to-equity when both sides
resolve, then growth for total assets, total liabilities and
shareholders funds, in insertion order. -/
def analyzeBalanceSheet (tbl : List (List Char × List ℚ)) : List (List Char × List PyFloat) :=
  (match findMetricCol bsPatsCA tbl, findMetricCol bsPatsCL tbl with
   | some ca, some cl =>
     [(S "Current Ratio", ratioSeries (ca.2.map PyFloat.fin) (cl.2.map PyFloat.fin))]
   | _, _ => []) ++
  (match findMetricCol bsPatsDebt tbl, findMetricCol bsPatsSF tbl with
   | some dc, some sf =>
     [(S "Debt-to-Equity Ratio", ratioSeries (dc.2.map PyFloat.fin) (sf.2.map PyFloat.fin))]
   | _, _ => []) ++
  growthEntry (findMetricCol bsPatsTA tbl) ++
  growthEntry (findMetricCol bsPatsTL tbl) ++
  growthEntry (findMetricCol bsPatsSF tbl)

/-- Candidate substrings for net sales. -/
def plPatsNS : List (List Char) :=
  [S "net sales", S "total sales", S "revenue", S "total revenue", S "sales revenue"]

/-- Candidate substrings for operating profit. -/
def plPatsOP : List (List Char) :=
  [S "operating profit", S "operating income", S "ebit",
   S "profit before interest and tax", S "operating surplus"]

/-- Candidate substrings for net profit. -/
def plPatsNP : List (List Char) :=
  [S "net profit", S "reported net profit", S "net income", S "profit after tax", S "net earnings"]

/-- Candidate substrings for gross profit. -/
def plPatsGP : List (List Char) := [S "gross profit", S "gross margin", S "gross income"]

/-- analyze_profit_loss on the transposed table: growth for every
resolved metric in vocabulary order, then the operating and net
margins, both with infinities replaced by NaN. -/
def analyzeProfitLoss (tbl : List (List Char × List ℚ)) : List (List Char × List PyFloat) :=
  growthEntry (findMetricCol plPatsNS tbl) ++
  growthEntry (findMetricCol plPatsOP tbl) ++
  growthEntry (findMetricCol plPatsNP tbl) ++
  growthEntry (findMetricCol plPatsGP tbl) ++
  (match findMetricCol plPatsOP tbl, findMetricCol plPatsNS tbl with
   | some op, some ns =>
     [(S "Operating Profit Margin (%)", marginSeries (op.2.map PyFloat.fin) (ns.2.map PyFloat.fin))]
   | _, _ => []) ++
  (match findMetricCol plPatsNP tbl, findMetricCol plPatsNS tbl with
   | some np, some ns =>
     [(S "Net Profit Margin (%)", marginSeries (np.2.map PyFloat.fin) (ns.2.map PyFloat.fin))]
   | _, _ => [])

/-- Exact-label column lookup of the cash-flow analysis. -/
def lookupColExact (name : List Char) (tbl : List (List Char × List ℚ)) : Option (List ℚ) :=
  (tbl.find? (fun c => c.1 == name)).map (fun c => c.2)

/-- analyze_cash_flow on the transposed table: growth for the three
fixed activity labels when present, then the operating to investing
ratio with the zero-divisor guard. -/
def analyzeCashFlow (tbl : List (List Char × List ℚ)) : List (List Char × List PyFloat) :=
  (match lookupColExact (S "Net Cash from Operating Activities") tbl with
   | some c => [(S "Net Cash from Operating Activities YoY Growth (%)", growthList (c.map PyFloat.fin))]
   | none => []) ++
  (match lookupColExact (S "Net Cash Used in Investing Activities") tbl with
   | some c => [(S "Net Cash Used in Investing Activities YoY Growth (%)", growthList (c.map PyFloat.fin))]
   | none => []) ++
  (match lookupColExact (S "Net Cash Used in Financing Activities") tbl with
   | some c => [(S "Net Cash Used in Financing Activities YoY Growth (%)", growthList (c.map PyFloat.fin))]
   | none => []) ++
  (match lookupColExact (S "Net Cash from Operating Activities") tbl,
         lookupColExact (S "Net Cash Used in Investing Activities") tbl with
   | some oc, some ic =>
     [(S "Op. CF to Inv. CF Ratio", ratioSeries (oc.map PyFloat.fin) (ic.map PyFloat.fin))]
   | _, _ => [])

/-- One growth entry written exactly as the specification words it:
the difference of the current and previous value over the previous
value, times one hundred. -/
def claimStep (cur prev : PyFloat) : PyFloat :=
  PyFloat.mul (PyFloat.div (PyFloat.sub cur prev) prev) (PyFloat.fin 100)

/-- Growth series as the specification words it, for refinement
against growthList; the first period has no predecessor and is NaN. -/
def specAux (p : ℚ) : List ℚ → List PyFloat
  | [] => []
  | v :: vs => claimStep (PyFloat.fin v) (PyFloat.fin p) :: specAux v vs

/-- Specification growth series over a finite metric column. -/
def specGrowthList : List ℚ → List PyFloat
  | [] => []
  | v :: vs => PyFloat.nan :: specAux v vs

/-- The excel branch of smart_file_reader over an abstract stream kept
as a read position: each engine reads from the current position,
advances it, and either yields a non-empty frame or fails; no seek is
issued between attempts.  The returned list records the position each
attempt started from. -/
def runExcelEngines {α : Type} : List (ℕ → ℕ × Option α) → ℕ → Option α × List ℕ
  | [], _ => (none, [])
  | e :: es, pos =>
    match (e pos).2 with
    | some g => (some g, [pos])
    | none =>
      match runExcelEngines es (e pos).1 with
      | (r, starts) => (r, pos :: starts)

/-- The csv branch of smart_file_reader over the same abstract stream:
file.seek(0) precedes every delimiter attempt, so each reads from
position zero; an attempt succeeds when parsing yields more than one
column.  The returned list records the position each attempt started
from. -/
def runCsvDelims {α : Type} : List (ℕ → ℕ × Option α) → ℕ → Option α × List ℕ
  | [], _ => (none, [])
  | d :: ds, _pos =>
    match (d 0).2 with
    | some g => (some g, [0])
    | none =>
      match runCsvDelims ds (d 0).1 with
      | (r, starts) => (r, 0 :: starts)

/-- dropWhile is the identity when no element satisfies the predicate. -/
theorem dropWhile_of_all_false {α : Type} (p : α → Bool) :
    ∀ l : List α, (∀ c ∈ l, p c = false) → l.dropWhile p = l
  | [], _ => rfl
  | c :: t, h => by
    have hc := h c (List.mem_cons_self _ _)
    simp [List.dropWhile, hc]

/-- A digit character is not whitespace. -/
theorem digit_not_ws (c : Char) (h : c.isDigit = true) : c.isWhitespace = false := by
  by_contra hw
  rw [Bool.not_eq_false] at hw
  simp only [Char.isWhitespace, Bool.or_eq_true, decide_eq_true_eq] at hw
  rcases hw with ((h1 | h1) | h1) | h1 <;> subst h1 <;> exact absurd h (by decide)

/-- Stripping whitespace from an all-digit string changes nothing. -/
theorem stripWS_of_digits (cs : List Char) (h : cs.all Char.isDigit = true) :
    stripWS cs = cs := by
  have h' : ∀ c ∈ cs, c.isWhitespace = false := fun c hc =>
    digit_not_ws c (List.all_eq_true.mp h c hc)
  unfold stripWS
  rw [dropWhile_of_all_false _ _ h', dropWhile_of_all_false, List.reverse_reverse]
  intro c hc
  exact h' c (List.mem_reverse.mp hc)

/-- Python int() accepts a nonempty all-digit string and returns its
value. -/
theorem pyInt?_digits (cs : List Char) (hne : cs ≠ []) (h : cs.all Char.isDigit = true) :
    pyInt? cs = some ((digitsToNat cs : ℕ) : ℤ) := by
  unfold pyInt?
  rw [stripWS_of_digits cs h]
  cases cs with
  | nil => exact absurd rfl hne
  | cons c rest =>
    have hc : c.isDigit = true := List.all_eq_true.mp h c (List.mem_cons_self _ _)
    have h1 : ¬ c = '+' := by rintro rfl; exact absurd hc (by decide)
    have h2 : ¬ c = '-' := by rintro rfl; exact absurd hc (by decide)
    simp [h1, h2, h]


/-- A growth step against a NaN previous value is NaN. -/
theorem gstep_nan (x : PyFloat) : gstep x PyFloat.nan = PyFloat.nan := by
  cases x <;> rfl

/-- On finite values the pct_change form of a growth step agrees with
the specification formula, including the zero-previous cases under
IEEE semantics. -/
theorem gstep_eq_claimStep (v p : ℚ) :
    gstep (PyFloat.fin v) (PyFloat.fin p) = claimStep (PyFloat.fin v) (PyFloat.fin p) := by
  have h100 : (100 : ℚ) ≠ 0 := by norm_num
  have h100' : (0 : ℚ) < 100 := by norm_num
  by_cases hp : p = 0
  · subst hp
    by_cases hv : v = 0
    · subst hv
      simp [gstep, claimStep, PyFloat.div, PyFloat.sub, PyFloat.mul, sub_self]
    · by_cases hv0 : 0 < v
      · simp [gstep, claimStep, PyFloat.div, PyFloat.sub, PyFloat.mul, sub_zero,
          hv, hv0, h100, h100']
      · simp [gstep, claimStep, PyFloat.div, PyFloat.sub, PyFloat.mul, sub_zero,
          hv, hv0, h100, h100']
  · simp only [gstep, claimStep, PyFloat.div, PyFloat.sub, PyFloat.mul, hp, if_neg,
      ite_false, PyFloat.fin.injEq]
    field_simp

/-- A growth step whose previous finite value is zero and whose
current value is nonzero is an infinity of the sign of the current
value. -/
theorem gstep_zero_prev (v : ℚ) (hv : v ≠ 0) :
    gstep (PyFloat.fin v) (PyFloat.fin 0) =
      if 0 < v then PyFloat.pinf else PyFloat.ninf := by
  have h100 : (100 : ℚ) ≠ 0 := by norm_num
  have h100' : (0 : ℚ) < 100 := by norm_num
  by_cases h : 0 < v <;>
    simp [gstep, PyFloat.div, PyFloat.sub, PyFloat.mul, hv, h, h100, h100']

/-- The pct_change walk on a finite series agrees with the
specification growth formula from the second element on. -/
theorem pctAux_spec (vs : List ℚ) :
    ∀ p : ℚ, pctAux (PyFloat.fin p) (vs.map PyFloat.fin) = specAux p vs := by
  induction vs with
  | nil => intro p; rfl
  | cons v t ih => intro p; simp [pctAux, specAux, gstep_eq_claimStep v p, ih]

/-- Element access through zipWith, elementwise. -/
theorem zipWithGet {α β γ : Type} (f : α → β → γ) :
    ∀ (as : List α) (bs : List β) (i : ℕ),
      (List.zipWith f as bs).get? i =
        (as.get? i).bind (fun a => (bs.get? i).map (f a)) := by
  intro as
  induction as with
  | nil => intro bs i; cases bs <;> cases i <;> rfl
  | cons a t ih =>
    intro bs i
    cases bs with
    | nil =>
      cases i with
      | zero => rfl
      | succ n => cases ht : (a :: t).get? (n + 1) <;> simp [List.zipWith_nil_right, ht]
    | cons b u =>
      cases i with
      | zero => rfl
      | succ j => simpa using ih u j

/-- Any member of a zipWith image is the image of a pair of members. -/
theorem mem_zipWith_imp {α β γ : Type} (f : α → β → γ) :
    ∀ (as : List α) (bs : List β) (c : γ), c ∈ List.zipWith f as bs →
      ∃ a b, a ∈ as ∧ b ∈ bs ∧ c = f a b := by
  intro as
  induction as with
  | nil => intro bs c hc; simp at hc
  | cons a t ih =>
    intro bs c hc
    cases bs with
    | nil => simp at hc
    | cons b u =>
      rcases List.mem_cons.mp hc with h | h
      · exact ⟨a, b, List.mem_cons_self _ _, List.mem_cons_self _ _, h⟩
      · obtain ⟨x, y, hx, hy, hxy⟩ := ih u c h
        exact ⟨x, y, List.mem_cons_of_mem _ hx, List.mem_cons_of_mem _ hy, hxy⟩

/-- A guarded division of finite values is never an infinity. -/
theorem div_guard_not_inf (a b : ℚ) :
    (PyFloat.div (PyFloat.fin a) (replaceZeroNanF (PyFloat.fin b))).isInf = false := by
  by_cases hb : b = 0
  · subst hb
    simp [replaceZeroNanF, PyFloat.div, PyFloat.isInf]
  · have hne : PyFloat.fin b ≠ PyFloat.fin 0 := by simpa using hb
    simp [replaceZeroNanF, hne, PyFloat.div, hb, PyFloat.isInf]

/-- Replacing infinities leaves no infinity behind. -/
theorem replaceInf_not_inf (u : PyFloat) : (replaceInfNanF u).isInf = false := by
  cases u <;> rfl

/-- A margin entry with a zero divisor is NaN after the infinity
replacement, whatever the numerator. -/
theorem margin_zero_nan (a : ℚ) :
    replaceInfNanF (marginStep (PyFloat.fin a) (PyFloat.fin 0)) = PyFloat.nan := by
  have h100 : (100 : ℚ) ≠ 0 := by norm_num
  have h100' : (0 : ℚ) < 100 := by norm_num
  by_cases h0 : a = 0
  · simp [marginStep, PyFloat.div, PyFloat.mul, h0, replaceInfNanF]
  · by_cases hp : 0 < a
    · simp [marginStep, PyFloat.div, PyFloat.mul, h0, hp, h100, h100', replaceInfNanF]
    · simp [marginStep, PyFloat.div, PyFloat.mul, h0, hp, h100, h100', replaceInfNanF]

/-- The element after position i of the pct_change walk is the step of
the two surrounding source elements. -/
theorem pctAux_get_succ :
    ∀ (xs : List PyFloat) (prev : PyFloat) (i : ℕ) (p v : PyFloat),
      xs.get? i = some p → xs.get? (i + 1) = some v →
      (pctAux prev xs).get? (i + 1) = some (gstep v p) := by
  intro xs
  induction xs with
  | nil => intro prev i p v h _; simp at h
  | cons x t ih =>
    intro prev i p v hp hv
    cases i with
    | zero =>
      simp at hp
      subst hp
      cases t with
      | nil => simp at hv
      | cons y u =>
        simp at hv
        subst hv
        rfl
    | succ j =>
      have := ih x j p v (by simpa using hp) (by simpa using hv)
      simpa [pctAux] using this


/-- findIdx? from any start over a list with no satisfying element is
none. -/
theorem findIdxAuxNone {α : Type} (p : α → Bool) :
    ∀ (l : List α) (i : ℕ), (∀ x ∈ l, p x = false) → List.findIdx? p l i = none := by
  intro l
  induction l with
  | nil => intro i _; rfl
  | cons x t ih =>
    intro i h
    have hx := h x (List.mem_cons_self _ _)
    rw [List.findIdx?_cons, hx]
    simpa using ih (i + 1) (fun y hy => h y (List.mem_cons_of_mem _ hy))

/-- findIdx? over a list with no satisfying element is none. -/
theorem findIdxNone {α : Type} (p : α → Bool) (l : List α)
    (h : ∀ x ∈ l, p x = false) : l.findIdx? p = none :=
  findIdxAuxNone p l 0 h

/-- Grid for the C2 counterexample: a year row is found, no keyword
row follows. -/
def c2Grid : List (List Cell) :=
  [[Cell.txt (S "Year"), Cell.txt (S "2011")],
   [Cell.txt (S "Foo"), Cell.num 1, Cell.num 2]]

/-- C2, counterexample: on a Profit and Loss grid whose period row is
found while no keyword row yields a data start, the loader defaults
the data start to the period row index plus two, not plus one as
claimed. -/
theorem C2_counterexample :
    findDataStructurePL c2Grid = (some 0, none) ∧
    plResolved c2Grid = (0, 2, true) ∧ ¬ (plResolved c2Grid).2.1 = 0 + 1 :=
  ⟨by decide, by decide, by decide⟩

/-- C2 (amended): for every grid processed as Profit and Loss in which
a period row is found but no keyword row yields a data start, the
loader defaults the data start index to the period row index plus two
and surfaces a warning. -/
theorem C2_default (g : List (List Cell)) (y : ℕ)
    (h : findDataStructurePL g = (some y, none)) :
    plResolved g = (y, y + 2, true) := by
  unfold plResolved
  rw [h]

/-- Grid for the C2 witness. -/
def c2WGrid : List (List Cell) := [[Cell.txt (S "Year"), Cell.txt (S "2011")]]

/-- C2, witness: the amended default theorem applied to a concrete
grid. -/
theorem C2_witness :
    findDataStructurePL c2WGrid = (some 0, none) ∧
    plResolved c2WGrid = (0, 0 + 2, true) :=
  ⟨by decide, C2_default c2WGrid 0 (by decide)⟩

/-- C5 (amended): for Balance Sheet and Profit and Loss grids a
structure-location failure alone is soft, replaced by heuristic
defaults with a warning; the Cash Flow loader instead fails totally
when no first-column cell after the five skipped rows starts with the
word Year. -/
theorem C5_soft_and_fatal :
    (∀ (g : List (List Cell)) (d : Option ℕ),
        findDataStructureBS g = (none, d) → bsResolved g = (0, 1, true)) ∧
    (∀ (g : List (List Cell)) (y : ℕ),
        findDataStructureBS g = (some y, none) → bsResolved g = (y, y + 1, true)) ∧
    (∀ (g : List (List Cell)) (d : ℕ),
        findDataStructurePL g = (none, some d) → plResolved g = (0, d, true)) ∧
    (∀ g : List (List Cell),
        findDataStructurePL g = (none, none) → plResolved g = (0, 2, true)) ∧
    (∀ g : List (List Cell),
        (∀ r ∈ g.drop 5, cfYearPred r = false) → loadCashFlow g = none) := by
  refine ⟨?_, ?_, ?_, ?_, ?_⟩
  · intro g d h; unfold bsResolved; rw [h]
  · intro g y h; unfold bsResolved; rw [h]
  · intro g d h; unfold plResolved; rw [h]
  · intro g h; unfold plResolved; rw [h]
  · intro g h
    unfold loadCashFlow loadCashFlowCore
    rw [findIdxNone _ _ h]

/-- Grid with no structure at all, for the C5 witness. -/
def c5BsGrid : List (List Cell) := [[Cell.txt (S "hello"), Cell.txt (S "world")]]

/-- Cash-flow grid with no Year row, for the C5 witness. -/
def c5CfGridW : List (List Cell) := List.replicate 6 [Cell.txt (S "alpha")]

/-- C5, witness: the soft defaults and the fatal cash-flow outcome at
concrete grids. -/
theorem C5_witness :
    bsResolved c5BsGrid = (0, 1, true) ∧ plResolved c5BsGrid = (0, 2, true) ∧
    loadCashFlow c5CfGridW = none :=
  ⟨C5_soft_and_fatal.1 c5BsGrid none (by decide),
   C5_soft_and_fatal.2.2.2.1 c5BsGrid (by decide),
   C5_soft_and_fatal.2.2.2.2 c5CfGridW (by decide)⟩

/-- Cash-flow grid with no Year row, for the C5 counterexample. -/
def c5CfGridX : List (List Cell) := List.replicate 7 [Cell.txt (S "beta")]

/-- C5, counterexample: a decodable Cash Flow grid whose period row is
missing is a total load failure, not a soft default producing a
table. -/
theorem C5_counterexample : loadCashFlow c5CfGridX = none := by decide

/-- C10: the Cash Flow loader unconditionally drops the first five
rows before any structure search, and returns none, with no heuristic
fallback, when no remaining first-column cell starts with Year or none
contains the phrase Cash Flow Summary. -/
theorem C10_cashflow_structure :
    (∀ (pre rest : List (List Cell)), pre.length = 5 →
        loadCashFlow (pre ++ rest) = loadCashFlowCore rest) ∧
    (∀ rows : List (List Cell), (∀ r ∈ rows, cfYearPred r = false) →
        loadCashFlowCore rows = none) ∧
    (∀ rows : List (List Cell), (∀ r ∈ rows, cfSummaryPred r = false) →
        loadCashFlowCore rows = none) := by
  refine ⟨?_, ?_, ?_⟩
  · intro pre rest h
    unfold loadCashFlow
    rw [← h, List.drop_left]
  · intro rows h
    unfold loadCashFlowCore
    rw [findIdxNone _ _ h]
  · intro rows h
    unfold loadCashFlowCore
    rw [findIdxNone _ _ h]
    cases rows.findIdx? cfYearPred <;> rfl

/-- Five metadata rows, for the C10 witness. -/
def c10Pre : List (List Cell) := List.replicate 5 [Cell.txt (S "meta")]

/-- Rows with no Year cell, for the C10 witness. -/
def c10NoYear : List (List Cell) := [[Cell.txt (S "stuff"), Cell.num 1]]

/-- Rows with a Year cell but no Cash Flow Summary cell, for the C10
witness. -/
def c10NoCFS : List (List Cell) :=
  [[Cell.txt (S "Year"), Cell.txt (S "2011")], [Cell.txt (S "data"), Cell.num 3]]

/-- C10, witness: skipped rows and the two fatal outcomes at concrete
grids. -/
theorem C10_witness :
    loadCashFlow (c10Pre ++ c10NoYear) = loadCashFlowCore c10NoYear ∧
    loadCashFlowCore c10NoYear = none ∧
    loadCashFlowCore c10NoCFS = none :=
  ⟨C10_cashflow_structure.1 c10Pre c10NoYear (by decide),
   C10_cashflow_structure.2.1 c10NoYear (by decide),
   C10_cashflow_structure.2.2 c10NoCFS (by decide)⟩

/-- C3, counterexample: the utils variant of the normalizer, the one
the Cash Flow path imports, returns a four-digit numeric token
verbatim, because int() of the empty month substring raises into the
catch-all handler; it does not return the FY label the claim
requires of every statement-type path. -/
theorem C3_counterexample :
    parseYearUtils (S "2011") = S "2011" ∧
    ¬ parseYearUtils (S "2011") = S "FY-" ++ S "2011" :=
  ⟨by decide, by decide⟩

/-- C3 (amended): every four-character all-digit token is mapped to
the FY label by the Balance Sheet and Profit and Loss variants of the
normalizer, while the utils variant used on the Cash Flow path
returns the token verbatim. -/
theorem C3_fourDigit (t : List Char) (h4 : t.length = 4) (hd : t.all Char.isDigit = true) :
    parseYearBS t = S "FY-" ++ t ∧ parseYearPL t = S "FY-" ++ t ∧
    parseYearUtils t = t := by
  have hstrip : stripWS t = t := stripWS_of_digits t hd
  have hbody : parseYearBSBodyStripped t = Except.ok (S "FY-" ++ t) := by
    have h6 : ¬ t.length = 6 := by omega
    unfold parseYearBSBodyStripped
    rw [if_neg h6, if_pos h4]
  have hBS : parseYearBS t = S "FY-" ++ t := by
    unfold parseYearBS
    rw [hstrip, hbody]
  have hUtils : parseYearUtils t = t := by
    have hne : t ≠ [] := by intro hc; rw [hc] at h4; simp at h4
    have htake : t.take 4 = t := List.take_of_length_le (by omega)
    have hok : pyIntE (t.take 4) = Except.ok ((digitsToNat t : ℕ) : ℤ) := by
      rw [htake]; unfold pyIntE; rw [pyInt?_digits t hne hd]
    have herr : pyIntE (t.drop 4) = Except.error PyErr.valueError := by
      rw [List.drop_eq_nil_of_le (by omega)]; rfl
    have hbodyU : parseYearUtilsBody t = Except.error PyErr.valueError := by
      unfold parseYearUtilsBody
      simp only [hok, herr]
      rfl
    unfold parseYearUtils
    rw [hbodyU]
  exact ⟨hBS, by unfold parseYearPL; exact hBS, hUtils⟩

/-- C3, witness: the amended statement at a concrete token. -/
theorem C3_witness :
    parseYearBS (S "1999") = S "FY-" ++ S "1999" ∧
    parseYearPL (S "1999") = S "FY-" ++ S "1999" ∧
    parseYearUtils (S "1999") = S "1999" :=
  C3_fourDigit (S "1999") (by decide) (by decide)

/-- C4: every variant of the period normalizer ends in a catch-all
handler, so the run form never propagates an exception and agrees
with the plain total function on every input string. -/
theorem C4_total (cs : List Char) :
    parseYearUtilsRun cs = Except.ok (parseYearUtils cs) ∧
    parseYearBSRun cs = Except.ok (parseYearBS cs) ∧
    parseYearPLRun cs = Except.ok (parseYearPL cs) := by
  refine ⟨?_, ?_, ?_⟩
  · unfold parseYearUtilsRun parseYearUtils
    cases parseYearUtilsBody cs <;> rfl
  · unfold parseYearBSRun parseYearBS
    cases parseYearBSBodyStripped (stripWS cs) <;> rfl
  · unfold parseYearPLRun parseYearPL parseYearBSRun parseYearBS
    cases parseYearBSBodyStripped (stripWS cs) <;> rfl

/-- Reduction of a successful Except bind. -/
theorem exceptBindOk {e a b : Type} (x : a) (f : a → Except e b) :
    (Except.ok x >>= f) = f x := rfl

/-- Reduction of a failed Except bind. -/
theorem exceptBindErr {e a b : Type} (x : e) (f : a → Except e b) :
    ((Except.error x : Except e a) >>= f) = Except.error x := rfl

/-- C8, counterexample: the six-digit token with month thirteen is
returned verbatim by the top-level handler; the claimed four-digit
fallback label is never produced. -/
theorem C8_counterexample :
    parseYearBS (S "201113") = S "201113" ∧
    ¬ parseYearBS (S "201113") = S "FY-2011" :=
  ⟨by decide, by decide⟩

/-- C8 (amended): a six-character all-digit token whose last two
digits are no month in one to twelve makes datetime raise inside the
length-six branch; the exception reaches the top-level handler, which
returns the token verbatim, and the four-digit-run fallback is never
consulted. -/
theorem C8_invalidMonth (t : List Char) (h6 : t.length = 6)
    (hd : t.all Char.isDigit = true)
    (hm : digitsToNat (t.drop 4) = 0 ∨ 12 < digitsToNat (t.drop 4)) :
    parseYearBS t = t := by
  have hstrip : stripWS t = t := stripWS_of_digits t hd
  have hne4 : t.take 4 ≠ [] := by
    have hlen : (t.take 4).length = 4 := by simp [List.length_take, h6]
    intro hc; rw [hc] at hlen; simp at hlen
  have hall4 : (t.take 4).all Char.isDigit = true := by
    rw [List.all_eq_true] at hd ⊢
    exact fun c hc => hd c (List.mem_of_mem_take hc)
  have hne2 : t.drop 4 ≠ [] := by
    have hlen : (t.drop 4).length = 2 := by simp [List.length_drop, h6]
    intro hc; rw [hc] at hlen; simp at hlen
  have hall2 : (t.drop 4).all Char.isDigit = true := by
    rw [List.all_eq_true] at hd ⊢
    exact fun c hc => hd c (List.mem_of_mem_drop hc)
  have hok4 : pyIntE (t.take 4) = Except.ok ((digitsToNat (t.take 4) : ℕ) : ℤ) := by
    unfold pyIntE; rw [pyInt?_digits _ hne4 hall4]
  have hok2 : pyIntE (t.drop 4) = Except.ok ((digitsToNat (t.drop 4) : ℕ) : ℤ) := by
    unfold pyIntE; rw [pyInt?_digits _ hne2 hall2]
  have hdt : mkDatetimeE ((digitsToNat (t.take 4) : ℕ) : ℤ) ((digitsToNat (t.drop 4) : ℕ) : ℤ) =
      Except.error PyErr.valueError := by
    unfold mkDatetimeE
    rw [if_neg]
    rintro ⟨-, -, hm1, hm2⟩
    rcases hm with h0 | h13
    · rw [h0] at hm1; norm_num at hm1
    · have h13' : (12 : ℤ) < ((digitsToNat (t.drop 4) : ℕ) : ℤ) := by exact_mod_cast h13
      omega
  have hbody : parseYearBSBodyStripped t = Except.error PyErr.valueError := by
    unfold parseYearBSBodyStripped
    rw [if_pos h6]
    simp only [hok4, hok2, exceptBindOk, hdt, exceptBindErr]
  unfold parseYearBS
  rw [hstrip, hbody]

/-- C8, witness: the amended statement at a concrete token with month
zero. -/
theorem C8_witness : parseYearBS (S "209900") = S "209900" :=
  C8_invalidMonth (S "209900") (by decide) (by decide) (Or.inl (by decide))

/-- C7: the year-over-year growth series of the engine equals the
specification formula series on every finite metric column, its first
entry is NaN whenever the column is nonempty, and on the column of
one hundred then one hundred fifty the second entry is exactly
fifty. -/
theorem C7_growth (qs : List ℚ) :
    growthList (qs.map PyFloat.fin) = specGrowthList qs ∧
    (growthList (qs.map PyFloat.fin)).head? = qs.head?.map (fun _ => PyFloat.nan) ∧
    growthList ([100, 150].map PyFloat.fin) = [PyFloat.nan, PyFloat.fin 50] := by
  have h100 : (100 : ℚ) ≠ 0 := by norm_num
  have hmain : ∀ l : List ℚ, growthList (l.map PyFloat.fin) = specGrowthList l := by
    intro l
    cases l with
    | nil => rfl
    | cons v t =>
      unfold growthList specGrowthList
      simp [pctAux, gstep_nan, pctAux_spec]
  refine ⟨hmain qs, ?_, ?_⟩
  · rw [hmain qs]
    cases qs <;> rfl
  · rw [hmain [100, 150]]
    simp [specGrowthList, specAux, claimStep, PyFloat.div, PyFloat.sub, PyFloat.mul, h100]
    norm_num

/-- C1 (amended): over finite input series, the guarded ratio
derivations and the margins are never an infinity and are NaN at
every period whose divisor is zero; the year-over-year growth entry
after a zero value is the infinity of the sign of the next value, so
growth entries can be infinite. -/
theorem C1_ratio_margin_growth (num den : List ℚ) (i : ℕ) :
    (∀ v ∈ ratioSeries (num.map PyFloat.fin) (den.map PyFloat.fin), v.isInf = false) ∧
    (∀ v ∈ marginSeries (num.map PyFloat.fin) (den.map PyFloat.fin), v.isInf = false) ∧
    (den.get? i = some 0 → i < num.length →
      (ratioSeries (num.map PyFloat.fin) (den.map PyFloat.fin)).get? i = some PyFloat.nan ∧
      (marginSeries (num.map PyFloat.fin) (den.map PyFloat.fin)).get? i = some PyFloat.nan) ∧
    (∀ v : ℚ, num.get? i = some 0 → num.get? (i + 1) = some v → v ≠ 0 →
      (growthList (num.map PyFloat.fin)).get? (i + 1) =
        some (if 0 < v then PyFloat.pinf else PyFloat.ninf)) := by
  refine ⟨?_, ?_, ?_, ?_⟩
  · intro v hv
    unfold ratioSeries at hv
    obtain ⟨x, y, hx, hy, rfl⟩ := mem_zipWith_imp _ _ _ _ hv
    obtain ⟨a, _, rfl⟩ := List.mem_map.mp hx
    obtain ⟨y0, hy0, rfl⟩ := List.mem_map.mp hy
    obtain ⟨b, _, rfl⟩ := List.mem_map.mp hy0
    exact div_guard_not_inf a b
  · intro v hv
    unfold marginSeries at hv
    obtain ⟨u, _, rfl⟩ := List.mem_map.mp hv
    exact replaceInf_not_inf u
  · intro h0 hlen
    obtain ⟨a, ha⟩ : ∃ a, num.get? i = some a := ⟨_, List.get?_eq_get hlen⟩
    constructor
    · unfold ratioSeries
      rw [zipWithGet, List.get?_map, ha, List.get?_map, List.get?_map, h0]
      simp [replaceZeroNanF, PyFloat.div]
    · unfold marginSeries
      rw [List.get?_map, zipWithGet, List.get?_map, ha, List.get?_map, h0]
      simpa using margin_zero_nan a
  · intro v h0 hv hvne
    unfold growthList
    have hstep := pctAux_get_succ (num.map PyFloat.fin) PyFloat.nan i
      (PyFloat.fin 0) (PyFloat.fin v)
      (by rw [List.get?_map, h0]; rfl) (by rw [List.get?_map, hv]; rfl)
    rw [hstep, gstep_zero_prev v hvne]

/-- C1, witness: the amended statement at concrete series with a zero
divisor and a zero prior value. -/
theorem C1_witness :
    (ratioSeries ([0, 5].map PyFloat.fin) ([0, 2].map PyFloat.fin)).get? 0 =
      some PyFloat.nan ∧
    (marginSeries ([0, 5].map PyFloat.fin) ([0, 2].map PyFloat.fin)).get? 0 =
      some PyFloat.nan ∧
    (growthList ([0, 5].map PyFloat.fin)).get? 1 = some PyFloat.pinf := by
  obtain ⟨h1, h2, h3, h4⟩ := C1_ratio_margin_growth [0, 5] [0, 2] 0
  obtain ⟨ha, hb⟩ := h3 rfl (by decide)
  refine ⟨ha, hb, ?_⟩
  have hg := h4 5 rfl rfl (by decide)
  exact hg.trans (by rw [if_pos (show (0 : ℚ) < 5 by decide)])

/-- C1, counterexample: the analysis table of a balance sheet whose
total assets move from zero to one hundred contains a positive
infinity in its growth column, so the claim that no analysis entry is
ever infinite fails. -/
theorem C1_counterexample :
    analyzeBalanceSheet [(S "Total Assets", [0, 100])] =
      [(S "Total Assets YoY Growth (%)", [PyFloat.nan, PyFloat.pinf])] ∧
    PyFloat.pinf.isInf = true :=
  ⟨by decide, rfl⟩

/-- C6 (amended): the zero-row cleanup removes every all-zero row and
keeps every row with a nonzero value, and both the Balance Sheet and
Profit and Loss loaders end in it, so none of their output rows is
all-zero; the Cash Flow loader performs no such cleanup. -/
theorem C6_zero_rows :
    (∀ (rows : List (Cell × List ℚ)) (lbl : Cell) (vals : List ℚ),
        vals.all (fun v => decide (v = 0)) = true → (lbl, vals) ∉ dropZeroRows rows) ∧
    (∀ (rows : List (Cell × List ℚ)) (lbl : Cell) (vals : List ℚ),
        (lbl, vals) ∈ rows → vals.all (fun v => decide (v = 0)) = false →
          (lbl, vals) ∈ dropZeroRows rows) ∧
    (∀ (g : List (List Cell)) (t : FinTable), loadBS g = some t →
        ∀ (lbl : Cell) (vals : List ℚ), (lbl, vals) ∈ t.rows →
          vals.all (fun v => decide (v = 0)) = false) ∧
    (∀ (g : List (List Cell)) (t : FinTable), loadPL g = some t →
        ∀ (lbl : Cell) (vals : List ℚ), (lbl, vals) ∈ t.rows →
          vals.all (fun v => decide (v = 0)) = false) := by
  refine ⟨?_, ?_, ?_, ?_⟩
  · intro rows lbl vals hall hmem
    unfold dropZeroRows at hmem
    have hp := (List.mem_filter.mp hmem).2
    rw [hall] at hp
    simp at hp
  · intro rows lbl vals hmem hall
    unfold dropZeroRows
    exact List.mem_filter.mpr ⟨hmem, by simp [hall]⟩
  · intro g t hload lbl vals hmem
    simp only [loadBS] at hload
    split at hload
    · exact absurd hload (by simp)
    split at hload
    · exact absurd hload (by simp)
    split at hload
    · exact absurd hload (by simp)
    split at hload
    · exact absurd hload (by simp)
    injection hload with h
    subst h
    simp only at hmem
    have hp := (List.mem_filter.mp hmem).2
    simpa using hp
  · intro g t hload lbl vals hmem
    simp only [loadPL] at hload
    split at hload
    · exact absurd hload (by simp)
    split at hload
    · exact absurd hload (by simp)
    split at hload
    · exact absurd hload (by simp)
    split at hload
    · exact absurd hload (by simp)
    injection hload with h
    subst h
    simp only at hmem
    have hp := (List.mem_filter.mp hmem).2
    simpa using hp

/-- Row list for the C6 witness. -/
def c6Rows : List (Cell × List ℚ) :=
  [(Cell.txt (S "A"), [0, 0]), (Cell.txt (S "B"), [0, 3])]

/-- Balance-sheet grid for the C6 witness. -/
def c6BsGrid : List (List Cell) :=
  [[Cell.txt (S "Year"), Cell.txt (S "2011"), Cell.txt (S "2012")],
   [Cell.txt (S "Item A"), Cell.num 5, Cell.num 0],
   [Cell.txt (S "Zero"), Cell.num 0, Cell.num 0]]

/-- Table the balance-sheet loader produces on the C6 witness grid. -/
def c6BsTable : FinTable :=
  { cols := [S "FY-2011", S "FY-2012"], rows := [(Cell.txt (S "Item A"), [5, 0])] }

/-- Profit-and-loss grid for the C6 witness. -/
def c6PlGrid : List (List Cell) :=
  [[Cell.txt (S "Year"), Cell.txt (S "2011"), Cell.txt (S "2012")],
   [Cell.txt (S "Income :"), Cell.empty, Cell.empty],
   [Cell.txt (S "Net Sales"), Cell.num 7, Cell.num 8]]

/-- Table the profit-and-loss loader produces on the C6 witness grid. -/
def c6PlTable : FinTable :=
  { cols := [S "FY-2011", S "FY-2012"], rows := [(Cell.txt (S "Net Sales"), [7, 8])] }

/-- C6, witness: the cleanup drops the all-zero row and keeps the
mixed row, and the two loaders yield only rows with some nonzero
value on concrete grids. -/
theorem C6_witness :
    (Cell.txt (S "A"), ([0, 0] : List ℚ)) ∉ dropZeroRows c6Rows ∧
    (Cell.txt (S "B"), ([0, 3] : List ℚ)) ∈ dropZeroRows c6Rows ∧
    ([5, 0] : List ℚ).all (fun v => decide (v = 0)) = false ∧
    ([7, 8] : List ℚ).all (fun v => decide (v = 0)) = false :=
  ⟨C6_zero_rows.1 c6Rows (Cell.txt (S "A")) [0, 0] (by decide),
   C6_zero_rows.2.1 c6Rows (Cell.txt (S "B")) [0, 3] (by decide) (by decide),
   C6_zero_rows.2.2.1 c6BsGrid c6BsTable (by decide) (Cell.txt (S "Item A")) [5, 0] (by decide),
   C6_zero_rows.2.2.2 c6PlGrid c6PlTable (by decide) (Cell.txt (S "Net Sales")) [7, 8] (by decide)⟩

/-- Cash-flow grid containing an all-zero data row, for the C6
counterexample. -/
def c6CfGrid : List (List Cell) :=
  (List.replicate 5 [Cell.txt (S "junk")]) ++
  [[Cell.txt (S "Year"), Cell.txt (S "2011"), Cell.txt (S "2012"), Cell.empty],
   [Cell.txt (S "Cash Flow Summary"), Cell.empty, Cell.empty, Cell.empty],
   [Cell.txt (S "sub"), Cell.empty, Cell.empty, Cell.empty],
   [Cell.txt (S "Zero Item"), Cell.num 0, Cell.num 0, Cell.num 0],
   [Cell.txt (S "Cash Item"), Cell.num 1, Cell.num 5, Cell.num 7]]

/-- Table the cash-flow loader produces on that grid. -/
def c6CfTable : FinTable :=
  { cols := [S "2011", S "2012"],
    rows := [(Cell.txt (S "Zero Item"), [0, 0]), (Cell.txt (S "Cash Item"), [5, 7])] }

/-- C6, counterexample: the Cash Flow loader keeps a row that is zero
in every period column, so the all-zero cleanup claimed for every
statement type is absent there. -/
theorem C6_counterexample :
    loadCashFlow c6CfGrid = some c6CfTable ∧
    (Cell.txt (S "Zero Item"), ([0, 0] : List ℚ)) ∈ c6CfTable.rows ∧
    ([0, 0] : List ℚ).all (fun v => decide (v = 0)) = true :=
  ⟨by decide, by decide, by decide⟩

/-- C9 (amended): every csv delimiter attempt reads from position
zero because a seek precedes it, while the excel engine attempts are
not repositioned: a failed attempt hands its final position to the
next engine unchanged. -/
theorem C9_stream_positions :
    (∀ (α : Type) (ds : List (ℕ → ℕ × Option α)) (pos : ℕ),
        ∀ p ∈ (runCsvDelims ds pos).2, p = 0) ∧
    (∀ (α : Type) (e : ℕ → ℕ × Option α) (es : List (ℕ → ℕ × Option α)) (pos : ℕ),
        (e pos).2 = none →
          (runExcelEngines (e :: es) pos).2 =
            pos :: (runExcelEngines es (e pos).1).2) := by
  constructor
  · intro α ds
    induction ds with
    | nil => intro pos p hp; simp [runCsvDelims] at hp
    | cons d t ih =>
      intro pos p hp
      rcases hd : (d 0).2 with - | g
      · rcases hrec : runCsvDelims t (d 0).1 with ⟨r, starts⟩
        rw [runCsvDelims, hd, hrec] at hp
        simp at hp
        rcases hp with h | h
        · exact h
        · have := ih (d 0).1 p
          rw [hrec] at this
          exact this h
      · rw [runCsvDelims, hd] at hp
        simp at hp
        exact hp
  · intro α e es pos h
    rcases hrec : runExcelEngines es (e pos).1 with ⟨r, starts⟩
    rw [runExcelEngines, h, hrec]

/-- Failing engine consuming seven stream units, for C9. -/
def c9Fail : ℕ → ℕ × Option Unit := fun p => (p + 7, none)

/-- Succeeding engine, for C9. -/
def c9Ok : ℕ → ℕ × Option Unit := fun p => (p, some ())

/-- C9, witness: the amended statement at a concrete delimiter list
and engine list. -/
theorem C9_witness :
    (∀ p ∈ (runCsvDelims [c9Fail, c9Ok] 3).2, p = 0) ∧
    (runExcelEngines (c9Fail :: [c9Ok]) 0).2 =
      0 :: (runExcelEngines [c9Ok] (c9Fail 0).1).2 :=
  ⟨C9_stream_positions.1 Unit [c9Fail, c9Ok] 3,
   C9_stream_positions.2 Unit c9Fail [c9Ok] 0 rfl⟩

/-- C9, counterexample: with no seek between excel attempts, the
second engine starts reading at position seven, left behind by the
failed first attempt, not at the beginning of the content. -/
theorem C9_counterexample :
    (runExcelEngines [c9Fail, c9Ok] 0).2 = [0, 7] ∧ ¬ (7 : ℕ) = 0 :=
  ⟨rfl, by decide⟩
